import Mathlib

/-
Verification of the go-next-todo backend: a shallow embedding of the
authorization and session model (todo ownership rule, auth middleware,
JWT claim handling, password-reset lifecycle, registration) together
with theorems settling the specification claims.

Database tables are embedded as Lean lists of row structures; SQL
statements become the corresponding pure list transformations; Go's
`error` returns become `Except`; wall-clock time is an explicit `now`
parameter (unix seconds).
-/

/-- A row of the `todos` table (backend/internal/todo/repository.go and
backend/internal/models/todo.go): id, owning user_id, title, completed,
creation and update timestamps. -/
structure Todo where
  id : Int
  user_id : Int
  title : String
  completed : Bool
  created_at : Nat
  updated_at : Nat
  deriving Repr, DecidableEq

/-- Errors surfaced by the todo repository and service layers.
`ErrTodoNotFound` is `todo.ErrTodoNotFound` / `repositories.ErrTodoNotFound`;
`ErrTodoForbidden` is `repositories.ErrTodoForbidden` (referenced by
`handlers/todo_handler.go`). -/
inductive TodoRepoError where
  | ErrTodoNotFound
  | ErrTodoForbidden
  deriving Repr, DecidableEq

/-- Embeds `Repository.FindByID` (todo/repository.go): `SELECT ... FROM todos
WHERE id = ?`; `sql.ErrNoRows` becomes `ErrTodoNotFound`. `id` is the primary
key, so the query row is the first (only) matching row. -/
def TodoRepository.FindByID (db : List Todo) (id : Int) : Except TodoRepoError Todo :=
  match db.find? (fun t => t.id == id) with
  | some t => Except.ok t
  | none => Except.error TodoRepoError.ErrTodoNotFound

/-- Per-row effect of the SQL statement `UPDATE todos SET title = ?,
completed = ?, updated_at = CURRENT_TIMESTAMP WHERE id = ?` in
`Repository.Update` (todo/repository.go): a row matching `id` gets the new
title, completed flag and update timestamp; every other column (notably
`user_id`, `id`, `created_at`) and every other row is untouched. -/
def applyUpdate (id : Int) (t : Todo) (now : Nat) (r : Todo) : Todo :=
  if r.id == id then
    { r with title := t.title, completed := t.completed, updated_at := now }
  else r

/-- Embeds `Repository.Update` (todo/repository.go): executes the UPDATE,
checks `RowsAffected` (zero matching rows yields `ErrTodoNotFound`), then
re-reads the row with `FindByID`. Only `t.Title` and `t.Completed` are bound
into the SQL; `t.UserID` is never read. -/
def TodoRepository.Update (db : List Todo) (now : Nat) (id : Int) (t : Todo) :
    Except TodoRepoError (List Todo × Todo) :=
  let db2 := db.map (applyUpdate id t now)
  let rowsAffected := (db.filter (fun r => r.id == id)).length
  if rowsAffected == 0 then
    Except.error TodoRepoError.ErrTodoNotFound
  else
    match TodoRepository.FindByID db2 id with
    | Except.ok updated => Except.ok (db2, updated)
    | Except.error e => Except.error e

/-- Embeds `Repository.Delete` (todo/repository.go): `DELETE FROM todos WHERE
id = ?`; zero affected rows yields `ErrTodoNotFound`. -/
def TodoRepository.Delete (db : List Todo) (id : Int) : Except TodoRepoError (List Todo) :=
  let rowsAffected := (db.filter (fun r => r.id == id)).length
  if rowsAffected == 0 then Except.error TodoRepoError.ErrTodoNotFound
  else Except.ok (db.filter (fun r => !(r.id == id)))

/-- A Go slice: `nilSlice` is the nil slice (JSON `null`), `mk l` a non-nil
slice with elements `l`. Distinguishing the two matters because
`encoding/json` serializes a nil slice as `null` and an empty non-nil slice
as `[]`. -/
inductive GoSlice (α : Type) where
  | nilSlice : GoSlice α
  | mk : List α → GoSlice α
  deriving Repr, DecidableEq

/-- Go's `append`: appending to a nil slice allocates a non-nil slice. -/
def goAppend {α : Type} (s : GoSlice α) (x : α) : GoSlice α :=
  match s with
  | GoSlice.nilSlice => GoSlice.mk [x]
  | GoSlice.mk l => GoSlice.mk (l ++ [x])

/-- Scan loop of `Repository.FindAll` (todo/repository.go) over a result set:
`var todos []*Todo` starts nil and each row is appended; the final guard
`if todos == nil` replaces the nil slice by an explicit empty slice. -/
def scanRows (rows : List Todo) : GoSlice Todo :=
  let todos := rows.foldl goAppend GoSlice.nilSlice
  match todos with
  | GoSlice.nilSlice => GoSlice.mk []
  | GoSlice.mk l => GoSlice.mk l

/-- Embeds `Repository.FindAll` (todo/repository.go): `SELECT ... FROM todos`
(row ordering is irrelevant to the claims and kept as stored). -/
def TodoRepository.FindAll (db : List Todo) : GoSlice Todo :=
  scanRows db

/-- JSON rendering of one todo row (fields beyond those needed to
distinguish bodies are rendered plainly; string escaping is elided). -/
def jsonOfTodo (t : Todo) : String :=
  "\x7b\"id\":" ++ toString t.id ++ ",\"user_id\":" ++ toString t.user_id ++
  ",\"title\":\"" ++ t.title ++ "\",\"completed\":" ++
  (if t.completed then "true" else "false") ++ "\x7d"

/-- JSON rendering of a `[]*Todo` value by `encoding/json`: a nil slice
serializes to `null`, a non-nil slice to a JSON array. -/
def jsonOfTodoSlice (s : GoSlice Todo) : String :=
  match s with
  | GoSlice.nilSlice => "null"
  | GoSlice.mk l => "[" ++ String.intercalate "," (l.map jsonOfTodo) ++ "]"

/-- Modelled from the spec: `services/todo_service.go` and
`repositories/todo_repository.go` are not among the sources (only their
callers `handlers/todo_handler.go` and the handler tests are), so the
ownership check follows spec section 4.4: fetch the target todo by id
(absent yields NotFound); if `todo.user_id != requester.user_id` and
`requester.role != "admin"`, fail Forbidden; else return the todo. -/
def TodoService.GetTodoByID (db : List Todo) (id userID : Int) (role : String) :
    Except TodoRepoError Todo :=
  match TodoRepository.FindByID db id with
  | Except.error e => Except.error e
  | Except.ok t =>
    if t.user_id != userID && role != "admin" then
      Except.error TodoRepoError.ErrTodoForbidden
    else Except.ok t

/-- Modelled from the spec: `services/todo_service.go` is missing; per spec
section 4.4 the update applies the ownership rule and then updates
title/completed via the repository, which preserves the owner. -/
def TodoService.UpdateTodo (db : List Todo) (now : Nat) (id : Int) (patch : Todo)
    (userID : Int) (role : String) : Except TodoRepoError (List Todo × Todo) :=
  match TodoService.GetTodoByID db id userID role with
  | Except.error e => Except.error e
  | Except.ok _ => TodoRepository.Update db now id patch

/-- Modelled from the spec: `services/todo_service.go` is missing; per spec
section 4.4 the delete applies the ownership rule and then hard-deletes the
row via the repository. -/
def TodoService.DeleteTodo (db : List Todo) (id userID : Int) (role : String) :
    Except TodoRepoError (List Todo) :=
  match TodoService.GetTodoByID db id userID role with
  | Except.error e => Except.error e
  | Except.ok _ => TodoRepository.Delete db id

/-- Modelled from the spec: `services/todo_service.go` is missing; per spec
section 4.4 the list operation gives an admin all rows and a non-admin only
the rows with their own `user_id`, going through the repository scan loop
with its nil-slice guard (`Repository.FindAll`, todo/repository.go). -/
def TodoService.GetTodos (db : List Todo) (userID : Int) (role : String) : GoSlice Todo :=
  if role == "admin" then TodoRepository.FindAll db
  else scanRows (db.filter (fun t => t.user_id == userID))

/-- Outcome of a todo handler: a success with status and optional body, or a
JSON error with status and message (`gin.H` with a single `error` key in
handlers/todo_handler.go). -/
inductive HandlerResult where
  | ok (status : Nat) (body : Option Todo)
  | errorResult (status : Nat) (message : String)
  deriving Repr, DecidableEq

/-- Embeds `TodoHandler.GetTodoByIDHandler` (handlers/todo_handler.go,
error mapping): ok yields 200 with the todo; `ErrTodoNotFound` yields 404
"Todo not found"; `ErrTodoForbidden` yields 403 "Access denied". -/
def TodoHandler.GetTodoByIDHandler (db : List Todo) (id userID : Int) (role : String) :
    HandlerResult :=
  match TodoService.GetTodoByID db id userID role with
  | Except.ok t => HandlerResult.ok 200 (some t)
  | Except.error TodoRepoError.ErrTodoNotFound =>
    HandlerResult.errorResult 404 "Todo not found"
  | Except.error TodoRepoError.ErrTodoForbidden =>
    HandlerResult.errorResult 403 "Access denied"

/-- Embeds `TodoHandler.UpdateTodoHandler` (handlers/todo_handler.go): same
error mapping as the get handler; success yields 200 with the updated todo
and the new table state. -/
def TodoHandler.UpdateTodoHandler (db : List Todo) (now : Nat) (id : Int) (patch : Todo)
    (userID : Int) (role : String) : HandlerResult × List Todo :=
  match TodoService.UpdateTodo db now id patch userID role with
  | Except.ok (db2, t) => (HandlerResult.ok 200 (some t), db2)
  | Except.error TodoRepoError.ErrTodoNotFound =>
    (HandlerResult.errorResult 404 "Todo not found", db)
  | Except.error TodoRepoError.ErrTodoForbidden =>
    (HandlerResult.errorResult 403 "Access denied", db)

/-- Embeds `TodoHandler.DeleteTodoHandler` (handlers/todo_handler.go): same
error mapping; success yields 204 No Content and the new table state. -/
def TodoHandler.DeleteTodoHandler (db : List Todo) (id userID : Int) (role : String) :
    HandlerResult × List Todo :=
  match TodoService.DeleteTodo db id userID role with
  | Except.ok db2 => (HandlerResult.ok 204 none, db2)
  | Except.error TodoRepoError.ErrTodoNotFound =>
    (HandlerResult.errorResult 404 "Todo not found", db)
  | Except.error TodoRepoError.ErrTodoForbidden =>
    (HandlerResult.errorResult 403 "Access denied", db)

/-- Claims extracted from a verified session token
(`models.JWTClaims`): user id, email, role. -/
structure JWTClaims where
  UserID : Nat
  Email : String
  Role : String
  deriving Repr, DecidableEq

/-- Failure modes of `JWTService.ValidateToken` (services/jwt_service.go):
`parseFailure` stands for any error returned by `jwt.Parse` (unexpected
signing method rejected by the key function, bad signature, expired token,
malformed token); the others are the explicit malformed-claim checks. -/
inductive JWTError where
  | parseFailure
  | invalidUserID
  | invalidEmail
  | invalidRole
  deriving Repr, DecidableEq

/-- Outcome of the auth middleware on one request: reject with an HTTP
status and JSON error message (then `c.Abort()`), or proceed to the handler
with `user_id`, `user_email`, `user_role` set on the request context. -/
inductive AuthOutcome where
  | reject (status : Nat) (message : String)
  | proceed (user_id : Int) (user_email : String) (user_role : String)
  deriving Repr, DecidableEq

/-- Embeds `routes.AuthMiddleware` (routes package): an empty/missing
`Authorization` header fails 401 "Authorization header required"; a header
without the `Bearer ` prefix fails 401 "Invalid token format"; the token
after the prefix is passed to the token service and any validation error
fails 401 "Invalid or expired token"; otherwise the claims are attached to
the context and the chain continues. `validate` is the injected
`jwtService.ValidateToken`. -/
def AuthMiddleware (validate : String → Except JWTError JWTClaims) (header : String) :
    AuthOutcome :=
  if header == "" then AuthOutcome.reject 401 "Authorization header required"
  else if !(header.take 7 == "Bearer ") then AuthOutcome.reject 401 "Invalid token format"
  else
    match validate (header.drop 7) with
    | Except.error _ => AuthOutcome.reject 401 "Invalid or expired token"
    | Except.ok c => AuthOutcome.proceed (Int.ofNat c.UserID) c.Email c.Role

/-- A row of the `users` table (models/user.go): unique email and username,
bcrypt password hash, role "user" or "admin", timestamps. -/
structure User where
  ID : Nat
  Username : String
  Email : String
  PasswordHash : String
  Role : String
  CreatedAt : Nat
  UpdatedAt : Nat
  deriving Repr, DecidableEq

/-- Errors of the user and reset-token repositories
(`repositories.ErrDuplicateEmail`, `repositories.ErrUserNotFound`,
`repositories.ErrResetTokenNotFound`, and the "no rows affected" failure of
`UpdatePassword`). -/
inductive UserRepoError where
  | ErrDuplicateEmail
  | ErrUserNotFound
  | ErrResetTokenNotFound
  | noRowsAffected
  deriving Repr, DecidableEq

/-- Bcrypt is an external library; its hash is modeled as an opaque
injective encoding of the password (the code only ever stores hashes or
compares them with the library, never inverts them). -/
def HashPassword (password : String) : String :=
  "bcrypt$" ++ password

/-- MySQL AUTO_INCREMENT primary key for the `users` table. -/
def nextUserID (users : List User) : Nat :=
  users.foldl (fun m x => max m x.ID) 0 + 1

/-- Embeds `UserRepository.Create` (repositories/user_repository.go):
`INSERT INTO users (username, email, password_hash, role)`; the unique
indexes on email and username make MySQL reject a duplicate with error 1062,
which the code maps to `ErrDuplicateEmail`; otherwise the row is inserted
with the auto-assigned id (timestamps from the schema defaults). -/
def UserRepository.Create (users : List User) (now : Nat) (u : User) :
    Except UserRepoError (List User × User) :=
  if users.any (fun x => x.Email == u.Email || x.Username == u.Username) then
    Except.error UserRepoError.ErrDuplicateEmail
  else
    let created := { u with ID := nextUserID users, CreatedAt := now, UpdatedAt := now }
    Except.ok (users ++ [created], created)

/-- Embeds `UserRepository.FindByEmail` (repositories/user_repository.go):
`SELECT ... FROM users WHERE email = ?`; `sql.ErrNoRows` becomes
`ErrUserNotFound`. -/
def UserRepository.FindByEmail (users : List User) (email : String) :
    Except UserRepoError User :=
  match users.find? (fun x => x.Email == email) with
  | some u => Except.ok u
  | none => Except.error UserRepoError.ErrUserNotFound

/-- Embeds `UserRepository.UpdatePassword` (repositories/user_repository.go):
`UPDATE users SET password_hash = ?, updated_at = CURRENT_TIMESTAMP WHERE
id = ?`; zero affected rows is an error. -/
def UserRepository.UpdatePassword (users : List User) (userID : Nat) (newHash : String)
    (now : Nat) : Except UserRepoError (List User) :=
  let users2 := users.map (fun x =>
    if x.ID == userID then { x with PasswordHash := newHash, UpdatedAt := now } else x)
  if (users.filter (fun x => x.ID == userID)).length == 0 then
    Except.error UserRepoError.noRowsAffected
  else Except.ok users2

/-- A row of the `password_reset_tokens` table (models/user.go
`PasswordResetToken`): opaque token string, owning user, expiry, nullable
used-at marker. -/
structure PasswordResetToken where
  ID : Nat
  UserID : Nat
  Token : String
  ExpiresAt : Nat
  UsedAt : Option Nat
  deriving Repr, DecidableEq

/-- MySQL AUTO_INCREMENT primary key for `password_reset_tokens`. -/
def nextResetTokenID (tokens : List PasswordResetToken) : Nat :=
  tokens.foldl (fun m x => max m x.ID) 0 + 1

/-- Embeds `MySQLResetTokenRepo.FindByToken` (repositories, reset token
repo): `SELECT ... FROM password_reset_tokens WHERE token = ?`;
`sql.ErrNoRows` becomes `ErrResetTokenNotFound`. -/
def ResetTokenRepo.FindByToken (tokens : List PasswordResetToken) (tok : String) :
    Except UserRepoError PasswordResetToken :=
  match tokens.find? (fun r => r.Token == tok) with
  | some r => Except.ok r
  | none => Except.error UserRepoError.ErrResetTokenNotFound

/-- Embeds `MySQLResetTokenRepo.MarkUsed`: `UPDATE password_reset_tokens SET
used_at = NOW() WHERE id = ?`. -/
def ResetTokenRepo.MarkUsed (tokens : List PasswordResetToken) (id : Nat) (now : Nat) :
    List PasswordResetToken :=
  tokens.map (fun r => if r.ID == id then { r with UsedAt := some now } else r)

/-- Embeds `MySQLResetTokenRepo.Save`: `INSERT INTO password_reset_tokens
(user_id, token, expires_at)`. -/
def ResetTokenRepo.Save (tokens : List PasswordResetToken) (userID : Nat)
    (tok : String) (expiresAt : Nat) : List PasswordResetToken :=
  tokens ++ [{ ID := nextResetTokenID tokens, UserID := userID, Token := tok,
               ExpiresAt := expiresAt, UsedAt := none }]

/-- The persistent state the user service operates on: the `users` and
`password_reset_tokens` tables. -/
structure ResetState where
  users : List User
  resetTokens : List PasswordResetToken
  deriving Repr, DecidableEq

/-- Error categories of `UserService.ResetPasswordUser`
(services/user_service.go): in the code these are the distinct `fmt.Errorf`
messages "invalid or expired token", "token expired", "token already used",
"failed to update password: ...". -/
inductive ResetError where
  | invalidOrExpiredToken
  | tokenExpired
  | tokenAlreadyUsed
  | failedToUpdatePassword
  deriving Repr, DecidableEq

/-- Embeds `UserService.ForgotPasswordUser` (services/user_service.go): a
lookup miss on the email is deliberately treated as success with no state
change; otherwise a fresh reset token (`newToken`, generated by
`generateResetToken`) is saved with a 1-hour expiry and the reset email is
sent; `sendPasswordResetEmail` logs a send failure (`emailSendFails`) and
returns nil, so the outcome never depends on it. -/
def UserService.ForgotPasswordUser (st : ResetState) (now : Nat) (email newToken : String)
    (emailSendFails : Bool) : Except UserRepoError ResetState :=
  match UserRepository.FindByEmail st.users email with
  | Except.error _ => Except.ok st
  | Except.ok user =>
    let tokens2 := ResetTokenRepo.Save st.resetTokens user.ID newToken (now + 60 * 60)
    let _ := emailSendFails
    Except.ok { st with resetTokens := tokens2 }

/-- Embeds `UserService.ResetPasswordUser` (services/user_service.go): find
the token row (absent fails "invalid or expired token"); fail "token
expired" when `time.Now().After(ExpiresAt)`; fail "token already used" when
`used_at` is set; otherwise hash the new password, update the user's
password (a repository failure fails the call), and mark the token used —
`MarkUsed` failure (`markUsedFails`) is only logged and the call still
succeeds, leaving the token row unchanged. -/
def UserService.ResetPasswordUser (st : ResetState) (now : Nat) (tok newPassword : String)
    (markUsedFails : Bool) : Except ResetError ResetState :=
  match ResetTokenRepo.FindByToken st.resetTokens tok with
  | Except.error _ => Except.error ResetError.invalidOrExpiredToken
  | Except.ok resetToken =>
    if resetToken.ExpiresAt < now then Except.error ResetError.tokenExpired
    else if resetToken.UsedAt.isSome then Except.error ResetError.tokenAlreadyUsed
    else
      match UserRepository.UpdatePassword st.users resetToken.UserID
          (HashPassword newPassword) now with
      | Except.error _ => Except.error ResetError.failedToUpdatePassword
      | Except.ok users2 =>
        let tokens2 :=
          if markUsedFails then st.resetTokens
          else ResetTokenRepo.MarkUsed st.resetTokens resetToken.ID now
        Except.ok { users := users2, resetTokens := tokens2 }

/-- A JSON claim value as seen through `jwt.MapClaims` type assertions:
numbers decode to `float64` (here the naturals occurring as user ids and
unix times), strings to `string`. -/
inductive ClaimValue where
  | num (n : Nat)
  | str (s : String)
  | boolVal (b : Bool)
  | nullVal
  deriving Repr, DecidableEq

/-- A token as the `golang-jwt` library presents it to
`JWTService.ValidateToken` after parsing: the signing-method check done by
the key function, the library's signature and expiry verification, and the
decoded claim map. -/
structure ParsedToken where
  methodIsHMAC : Bool
  signatureValid : Bool
  expired : Bool
  claims : List (String × ClaimValue)
  deriving Repr, DecidableEq

/-- Embeds `JWTService.ValidateToken` (services/jwt_service.go): the key
function rejects any non-HMAC signing method; `jwt.Parse` fails on an
invalid signature or an expired token; then `user_id` must assert to
`float64`, and `email` and `role` to `string`, each failure producing its
own error; on success the three claims are returned. -/
def JWTService.ValidateToken (tok : ParsedToken) : Except JWTError JWTClaims :=
  if !tok.methodIsHMAC then Except.error JWTError.parseFailure
  else if !tok.signatureValid then Except.error JWTError.parseFailure
  else if tok.expired then Except.error JWTError.parseFailure
  else
    match tok.claims.lookup "user_id" with
    | some (ClaimValue.num n) =>
      match tok.claims.lookup "email" with
      | some (ClaimValue.str email) =>
        match tok.claims.lookup "role" with
        | some (ClaimValue.str role) => Except.ok { UserID := n, Email := email, Role := role }
        | _ => Except.error JWTError.invalidRole
      | _ => Except.error JWTError.invalidEmail
    | _ => Except.error JWTError.invalidUserID

/-- Embeds the claim map built by `JWTService.GenerateToken`
(services/jwt_service.go): `user_id`, `email`, `role`, issued-at `iat` set
to the current unix time and `exp` set 24 hours later. -/
def JWTService.GenerateTokenClaims (userID : Nat) (email role : String) (now : Nat) :
    List (String × ClaimValue) :=
  [("user_id", ClaimValue.num userID), ("email", ClaimValue.str email),
   ("role", ClaimValue.str role), ("iat", ClaimValue.num now),
   ("exp", ClaimValue.num (now + 24 * 60 * 60))]

/-- Embeds the claim map built by `loginHandler` in `cmd/api/main.go`:
`user_id`, `email`, `role` and `exp` 24 hours out — this iteration of the
login path sets no `iat` claim. -/
def mainLoginHandlerClaims (userID : Nat) (email role : String) (now : Nat) :
    List (String × ClaimValue) :=
  [("user_id", ClaimValue.num userID), ("email", ClaimValue.str email),
   ("role", ClaimValue.str role), ("exp", ClaimValue.num (now + 24 * 60 * 60))]

/-- Result of `c.ShouldBindJSON`: a decoded request value or a binding
error carrying Gin's internal error text. -/
inductive BindResult (α : Type) where
  | ok (value : α)
  | err (message : String)
  deriving Repr, DecidableEq

/-- The registration payload (`models.UserRegisterRequest`). -/
structure UserRegisterRequest where
  Username : String
  Email : String
  Password : String
  deriving Repr, DecidableEq

/-- Embeds `UserService.RegisterUser` (services/user_service.go): hash the
password, persist the user with default role "user", clear the hash on the
returned value; repository errors (notably `ErrDuplicateEmail`) propagate. -/
def UserService.RegisterUser (users : List User) (now : Nat) (req : UserRegisterRequest) :
    Except UserRepoError (List User × User) :=
  let hashed := HashPassword req.Password
  match UserRepository.Create users now
      { ID := 0, Username := req.Username, Email := req.Email, PasswordHash := hashed,
        Role := "user", CreatedAt := 0, UpdatedAt := 0 } with
  | Except.error e => Except.error e
  | Except.ok (users2, created) => Except.ok (users2, { created with PasswordHash := "" })

/-- Embeds `UserHandler.RegisterHandler` (handlers/user_handler.go): a bind
failure yields 400 with the fixed body `error: Invalid request payload`;
`ErrDuplicateEmail` yields 409; any other service failure yields 500; each
error body is a single fixed `error` entry. Success yields 201 with the
created user (hash cleared) and the new table state. -/
def UserHandler.RegisterHandler (users : List User) (now : Nat)
    (bind : BindResult UserRegisterRequest) :
    (Nat × List (String × String)) × List User :=
  match bind with
  | BindResult.err _ => ((400, [("error", "Invalid request payload")]), users)
  | BindResult.ok req =>
    match UserService.RegisterUser users now req with
    | Except.error UserRepoError.ErrDuplicateEmail =>
      ((409, [("error", "Username or email already exists")]), users)
    | Except.error _ => ((500, [("error", "Failed to register user")]), users)
    | Except.ok (users2, created) =>
      ((201, [("username", created.Username), ("email", created.Email)]), users2)

/-- Rendering of a `UserRepoError` as the Go `error.Error()` text the
wrapped repository errors carry (repositories/user_repository.go). -/
def userRepoErrorText : UserRepoError → String
  | UserRepoError.ErrDuplicateEmail => "duplicate email"
  | UserRepoError.ErrUserNotFound => "user not found"
  | UserRepoError.ErrResetTokenNotFound => "reset token not found"
  | UserRepoError.noRowsAffected => "no rows affected"

/-- Embeds `registerHandler` of `cmd/api/main.go`: unlike the layered
handler, its bind-failure and internal-failure responses carry a second
`details` entry holding the raw error text from Gin or the wrapped
repository error. -/
def mainRegisterHandler (users : List User) (now : Nat)
    (bind : BindResult UserRegisterRequest) :
    (Nat × List (String × String)) × List User :=
  match bind with
  | BindResult.err details =>
    ((400, [("error", "Invalid request payload"), ("details", details)]), users)
  | BindResult.ok req =>
    if req.Username == "" || req.Email == "" || req.Password == "" then
      ((400, [("error", "Username, email, and password are required")]), users)
    else
      match UserRepository.Create users now
          { ID := 0, Username := req.Username, Email := req.Email,
            PasswordHash := HashPassword req.Password, Role := "user",
            CreatedAt := 0, UpdatedAt := 0 } with
      | Except.error UserRepoError.ErrDuplicateEmail =>
        ((409, [("error", "Username or email already exists")]), users)
      | Except.error e =>
        ((500, [("error", "Failed to register user"),
                ("details", userRepoErrorText e)]), users)
      | Except.ok (users2, created) =>
        ((201, [("username", created.Username), ("email", created.Email)]), users2)

/-- Embeds `UserHandler.ForgotPasswordHandler` (handlers/user_handler.go):
a bind failure yields 400; a service failure yields 500; otherwise 200 with
the fixed message "Password reset email sent". -/
def UserHandler.ForgotPasswordHandler (st : ResetState) (now : Nat) (newToken : String)
    (emailSendFails : Bool) (bind : BindResult String) :
    (Nat × List (String × String)) × ResetState :=
  match bind with
  | BindResult.err _ => ((400, [("error", "Invalid request payload")]), st)
  | BindResult.ok email =>
    match UserService.ForgotPasswordUser st now email newToken emailSendFails with
    | Except.error _ => ((500, [("error", "Failed to process password reset")]), st)
    | Except.ok st2 => ((200, [("message", "Password reset email sent")]), st2)

theorem applyUpdate_keeps_key_columns (id : Int) (patch : Todo) (now : Nat) (r : Todo) :
    (applyUpdate id patch now r).id = r.id
      ∧ (applyUpdate id patch now r).user_id = r.user_id
      ∧ (applyUpdate id patch now r).created_at = r.created_at := by
  unfold applyUpdate
  by_cases h : (r.id == id) = true
  · simp [h]
  · simp [h]

theorem find?_eq_some_of_FindByID {db : List Todo} {id : Int} {t : Todo}
    (h : TodoRepository.FindByID db id = Except.ok t) :
    db.find? (fun r => r.id == id) = some t := by
  unfold TodoRepository.FindByID at h
  cases hf : db.find? (fun r => r.id == id) with
  | none => rw [hf] at h; exact absurd h (by simp)
  | some s => rw [hf] at h; simp at h; rw [h]

theorem filter_id_ne_nil_of_find? {db : List Todo} {id : Int} {t : Todo}
    (h : db.find? (fun r => r.id == id) = some t) :
    ((db.filter (fun r => r.id == id)).length == 0) = false := by
  have hsome : (db.find? (fun r => r.id == id)).isSome := by rw [h]; rfl
  obtain ⟨x, hxmem, hxp⟩ := List.find?_isSome.mp hsome
  have hmem : x ∈ db.filter (fun r => r.id == id) :=
    List.mem_filter.mpr ⟨hxmem, hxp⟩
  have hne : db.filter (fun r => r.id == id) ≠ [] := List.ne_nil_of_mem hmem
  simp only [beq_eq_false_iff_ne, ne_eq, List.length_eq_zero]
  exact hne

theorem find?_map_applyUpdate (db : List Todo) (id : Int) (patch t : Todo) (now : Nat)
    (h : db.find? (fun r => r.id == id) = some t) :
    (db.map (applyUpdate id patch now)).find? (fun r => r.id == id)
      = some (applyUpdate id patch now t) := by
  rw [List.find?_map]
  have hcomp : ((fun r : Todo => r.id == id) ∘ applyUpdate id patch now)
      = fun r : Todo => r.id == id := by
    funext r
    simp only [Function.comp_apply, (applyUpdate_keeps_key_columns id patch now r).1]
  rw [hcomp, h]
  rfl

theorem update_ok_of_found (db : List Todo) (now : Nat) (id : Int) (patch t : Todo)
    (h : db.find? (fun r => r.id == id) = some t) :
    TodoRepository.Update db now id patch
      = Except.ok (db.map (applyUpdate id patch now), applyUpdate id patch now t) := by
  unfold TodoRepository.Update
  simp only [filter_id_ne_nil_of_find? h, Bool.false_eq_true, if_false]
  unfold TodoRepository.FindByID
  rw [find?_map_applyUpdate db id patch t now h]

theorem delete_ok_of_found (db : List Todo) (id : Int) (t : Todo)
    (h : db.find? (fun r => r.id == id) = some t) :
    TodoRepository.Delete db id = Except.ok (db.filter (fun r => !(r.id == id))) := by
  unfold TodoRepository.Delete
  simp only [filter_id_ne_nil_of_find? h, Bool.false_eq_true, if_false]

theorem update_ignores_patch_user_id (db : List Todo) (now : Nat) (id : Int)
    (patch : Todo) (v : Int) :
    TodoRepository.Update db now id { patch with user_id := v }
      = TodoRepository.Update db now id patch := by
  have hfun : applyUpdate id { patch with user_id := v } now = applyUpdate id patch now := by
    funext r
    unfold applyUpdate
    rfl
  unfold TodoRepository.Update
  rw [hfun]

/-- C2: every successful `Repository.Update` rewrites the table by applying
`applyUpdate` to each row — so only the title, completed flag and updated_at
of rows matching the id change, while id, user_id and created_at of every
row are preserved — and the result is identical for any `user_id` value
supplied in the request body. -/
theorem todo_update_preserves_owner (db : List Todo) (now : Nat) (id : Int) (patch : Todo)
    (db2 : List Todo) (u : Todo)
    (h : TodoRepository.Update db now id patch = Except.ok (db2, u)) :
    db2 = db.map (applyUpdate id patch now)
    ∧ (∀ r, (applyUpdate id patch now r).id = r.id
        ∧ (applyUpdate id patch now r).user_id = r.user_id
        ∧ (applyUpdate id patch now r).created_at = r.created_at)
    ∧ u.user_id = (applyUpdate id patch now u).user_id
    ∧ (∀ v, TodoRepository.Update db now id { patch with user_id := v }
        = Except.ok (db2, u)) := by
  refine ⟨?_, fun r => applyUpdate_keeps_key_columns id patch now r, ?_, ?_⟩
  · cases hf : db.find? (fun r => r.id == id) with
    | none =>
      have hnil : db.filter (fun r => r.id == id) = [] := by
        rw [List.filter_eq_nil_iff]
        intro x hx
        simpa using List.find?_eq_none.mp hf x hx
      have herr : TodoRepository.Update db now id patch
          = Except.error TodoRepoError.ErrTodoNotFound := by
        unfold TodoRepository.Update
        simp [hnil]
      rw [herr] at h
      exact absurd h (by simp)
    | some t =>
      rw [update_ok_of_found db now id patch t hf] at h
      simp only [Except.ok.injEq, Prod.mk.injEq] at h
      exact h.1.symm
  · exact ((applyUpdate_keeps_key_columns id patch now u).2.1).symm
  · intro v
    rw [update_ignores_patch_user_id db now id patch v]
    exact h

/-- Witness for C2 at a concrete table: updating todo 1 (owned by user 5)
with a payload that claims user_id 99 succeeds and leaves the owner at 5. -/
theorem todo_update_preserves_owner_witness :
    TodoRepository.Update
        [{ id := 1, user_id := 5, title := "a", completed := false,
           created_at := 10, updated_at := 10 }] 20 1
        { id := 0, user_id := 99, title := "b", completed := true,
          created_at := 0, updated_at := 0 }
      = Except.ok
          ([{ id := 1, user_id := 5, title := "b", completed := true,
              created_at := 10, updated_at := 20 }],
           { id := 1, user_id := 5, title := "b", completed := true,
             created_at := 10, updated_at := 20 })
    ∧ ([{ id := 1, user_id := 5, title := "b", completed := true,
          created_at := 10, updated_at := 20 }]
        = [{ id := 1, user_id := 5, title := "a", completed := false,
             created_at := 10, updated_at := 10 }].map
            (applyUpdate 1 { id := 0, user_id := 99, title := "b", completed := true,
                             created_at := 0, updated_at := 0 } 20)) := by
  have h : TodoRepository.Update
      [{ id := 1, user_id := 5, title := "a", completed := false,
         created_at := 10, updated_at := 10 }] 20 1
      { id := 0, user_id := 99, title := "b", completed := true,
        created_at := 0, updated_at := 0 }
    = Except.ok
        ([{ id := 1, user_id := 5, title := "b", completed := true,
            created_at := 10, updated_at := 20 }],
         { id := 1, user_id := 5, title := "b", completed := true,
           created_at := 10, updated_at := 20 }) := by rfl
  exact ⟨h, (todo_update_preserves_owner _ _ _ _ _ _ h).1⟩

/-- C1: on an existing todo, a requester who is neither the owner nor an
admin gets 403 "Access denied" (and an unchanged table) from each of the
get, update and delete handlers; the owner, or any requester with role
"admin", succeeds: 200 with the todo, 200 with the updated todo, and 204. -/
theorem todo_ownership_rule (db : List Todo) (now : Nat) (id userID : Int) (role : String)
    (patch t : Todo) (hfind : TodoRepository.FindByID db id = Except.ok t) :
    (t.user_id ≠ userID → role ≠ "admin" →
      TodoHandler.GetTodoByIDHandler db id userID role
          = HandlerResult.errorResult 403 "Access denied"
        ∧ TodoHandler.UpdateTodoHandler db now id patch userID role
          = (HandlerResult.errorResult 403 "Access denied", db)
        ∧ TodoHandler.DeleteTodoHandler db id userID role
          = (HandlerResult.errorResult 403 "Access denied", db))
    ∧ (t.user_id = userID ∨ role = "admin" →
      TodoHandler.GetTodoByIDHandler db id userID role = HandlerResult.ok 200 (some t)
        ∧ (∃ db2 u, TodoHandler.UpdateTodoHandler db now id patch userID role
            = (HandlerResult.ok 200 (some u), db2))
        ∧ (∃ db2, TodoHandler.DeleteTodoHandler db id userID role
            = (HandlerResult.ok 204 none, db2))) := by
  have hfind' : db.find? (fun r => r.id == id) = some t := find?_eq_some_of_FindByID hfind
  constructor
  · intro hne hrole
    have hcond : (t.user_id != userID && role != "admin") = true := by
      simp [hne, hrole]
    have hsvc : TodoService.GetTodoByID db id userID role
        = Except.error TodoRepoError.ErrTodoForbidden := by
      unfold TodoService.GetTodoByID
      rw [hfind]
      simp [hcond]
    refine ⟨?_, ?_, ?_⟩
    · simp [TodoHandler.GetTodoByIDHandler, hsvc]
    · simp [TodoHandler.UpdateTodoHandler, TodoService.UpdateTodo, hsvc]
    · simp [TodoHandler.DeleteTodoHandler, TodoService.DeleteTodo, hsvc]
  · intro hok
    have hcond : (t.user_id != userID && role != "admin") = false := by
      cases hok with
      | inl h => simp [h]
      | inr h => simp [h]
    have hsvc : TodoService.GetTodoByID db id userID role = Except.ok t := by
      unfold TodoService.GetTodoByID
      rw [hfind]
      simp [hcond]
    refine ⟨?_, ?_, ?_⟩
    · simp [TodoHandler.GetTodoByIDHandler, hsvc]
    · refine ⟨db.map (applyUpdate id patch now), applyUpdate id patch now t, ?_⟩
      simp [TodoHandler.UpdateTodoHandler, TodoService.UpdateTodo, hsvc,
            update_ok_of_found db now id patch t hfind']
    · refine ⟨db.filter (fun r => !(r.id == id)), ?_⟩
      simp [TodoHandler.DeleteTodoHandler, TodoService.DeleteTodo, hsvc,
            delete_ok_of_found db id t hfind']

/-- Sample rows used by the witnesses: a single todo with id 1 owned by
user 5, and an update payload that claims user_id 99. -/
def sampleTodo : Todo :=
  { id := 1, user_id := 5, title := "a", completed := false,
    created_at := 10, updated_at := 10 }

/-- Sample one-row todo table for the witnesses. -/
def sampleDB : List Todo := [sampleTodo]

/-- Sample update payload for the witnesses (its user_id 99 differs from the
stored owner 5). -/
def samplePatch : Todo :=
  { id := 0, user_id := 99, title := "b", completed := true,
    created_at := 0, updated_at := 0 }

/-- Witness for C1 on `sampleDB` (one todo owned by user 5): user 6 with
role "user" is denied the get, the owner gets 200 with the row, and an
admin delete succeeds with 204. -/
theorem todo_ownership_rule_witness :
    TodoHandler.GetTodoByIDHandler sampleDB 1 6 "user"
        = HandlerResult.errorResult 403 "Access denied"
    ∧ TodoHandler.GetTodoByIDHandler sampleDB 1 5 "user"
        = HandlerResult.ok 200 (some sampleTodo)
    ∧ (∃ db2, TodoHandler.DeleteTodoHandler sampleDB 1 6 "admin"
        = (HandlerResult.ok 204 none, db2)) := by
  have h1 := todo_ownership_rule sampleDB 0 1 6 "user" samplePatch sampleTodo (by rfl)
  have h2 := todo_ownership_rule sampleDB 0 1 5 "user" samplePatch sampleTodo (by rfl)
  have h3 := todo_ownership_rule sampleDB 0 1 6 "admin" samplePatch sampleTodo (by rfl)
  exact ⟨(h1.1 (by decide) (by decide)).1,
         (h2.2 (Or.inl rfl)).1,
         (h3.2 (Or.inr rfl)).2.2⟩

/-- C3: the auth middleware is a four-state decision — empty/missing header
rejects 401 "Authorization header required"; a header present without the
`Bearer ` prefix rejects 401 "Invalid token format"; a token failing
verification rejects 401 "Invalid or expired token"; otherwise the
user_id/email/role claims are attached to the context and the handler
chain continues. -/
theorem auth_middleware_four_states (validate : String → Except JWTError JWTClaims)
    (header : String) :
    (header = "" →
      AuthMiddleware validate header
        = AuthOutcome.reject 401 "Authorization header required")
    ∧ (header ≠ "" → header.take 7 ≠ "Bearer " →
      AuthMiddleware validate header = AuthOutcome.reject 401 "Invalid token format")
    ∧ (∀ e, header ≠ "" → header.take 7 = "Bearer " →
      validate (header.drop 7) = Except.error e →
      AuthMiddleware validate header = AuthOutcome.reject 401 "Invalid or expired token")
    ∧ (∀ c, header ≠ "" → header.take 7 = "Bearer " →
      validate (header.drop 7) = Except.ok c →
      AuthMiddleware validate header
        = AuthOutcome.proceed (Int.ofNat c.UserID) c.Email c.Role) := by
  refine ⟨?_, ?_, ?_, ?_⟩
  · intro h
    simp [AuthMiddleware, h]
  · intro h1 h2
    simp [AuthMiddleware, h1, h2]
  · intro e h1 h2 h3
    simp [AuthMiddleware, h1, h2, h3]
  · intro c h1 h2 h3
    simp [AuthMiddleware, h1, h2, h3]

/-- Token verifier used by the middleware witness: accepts exactly the
token string "goodtoken". -/
def sampleValidate (s : String) : Except JWTError JWTClaims :=
  if s == "goodtoken" then
    Except.ok { UserID := 1, Email := "alice@example.com", Role := "user" }
  else Except.error JWTError.parseFailure

/-- Witness for C3: each of the four middleware states reached on a
concrete request. -/
theorem auth_middleware_four_states_witness :
    AuthMiddleware sampleValidate ""
        = AuthOutcome.reject 401 "Authorization header required"
    ∧ AuthMiddleware sampleValidate "Token abc"
        = AuthOutcome.reject 401 "Invalid token format"
    ∧ AuthMiddleware sampleValidate "Bearer bad"
        = AuthOutcome.reject 401 "Invalid or expired token"
    ∧ AuthMiddleware sampleValidate "Bearer goodtoken"
        = AuthOutcome.proceed 1 "alice@example.com" "user" := by
  refine ⟨(auth_middleware_four_states sampleValidate "").1 rfl,
          (auth_middleware_four_states sampleValidate "Token abc").2.1
            (by decide) (by decide),
          (auth_middleware_four_states sampleValidate "Bearer bad").2.2.1
            JWTError.parseFailure (by decide) (by decide) (by rfl),
          (auth_middleware_four_states sampleValidate "Bearer goodtoken").2.2.2
            { UserID := 1, Email := "alice@example.com", Role := "user" }
            (by decide) (by decide) (by rfl)⟩

theorem updatePassword_ok_of_mem (users : List User) (uid : Nat) (newHash : String)
    (now : Nat) (h : ∃ u, u ∈ users ∧ u.ID = uid) :
    UserRepository.UpdatePassword users uid newHash now
      = Except.ok (users.map (fun x =>
          if x.ID == uid then { x with PasswordHash := newHash, UpdatedAt := now }
          else x)) := by
  obtain ⟨u, hu, hid⟩ := h
  have hmem : u ∈ users.filter (fun x => x.ID == uid) :=
    List.mem_filter.mpr ⟨hu, by simp [hid]⟩
  have hcond : ((users.filter (fun x => x.ID == uid)).length == 0) = false := by
    simp only [beq_eq_false_iff_ne, ne_eq, List.length_eq_zero]
    exact List.ne_nil_of_mem hmem
  unfold UserRepository.UpdatePassword
  simp [hcond]

/-- C4: resetPassword first classifies the token — absent rows fail with the
not-found error, an expiry in the past fails with the expired error, a set
used_at fails with the already-used error — and otherwise (when the owning
user row exists) succeeds, storing the new password hash for the user and
marking the token used; a mark-used failure (mf = true) leaves the token
rows unchanged but the call still succeeds. -/
theorem reset_password_lifecycle (st : ResetState) (now : Nat) (tok np : String)
    (mf : Bool) :
    (ResetTokenRepo.FindByToken st.resetTokens tok
        = Except.error UserRepoError.ErrResetTokenNotFound →
      UserService.ResetPasswordUser st now tok np mf
        = Except.error ResetError.invalidOrExpiredToken)
    ∧ (∀ rt, ResetTokenRepo.FindByToken st.resetTokens tok = Except.ok rt →
      (rt.ExpiresAt < now →
        UserService.ResetPasswordUser st now tok np mf
          = Except.error ResetError.tokenExpired)
      ∧ (¬ rt.ExpiresAt < now → rt.UsedAt.isSome = true →
        UserService.ResetPasswordUser st now tok np mf
          = Except.error ResetError.tokenAlreadyUsed)
      ∧ (¬ rt.ExpiresAt < now → rt.UsedAt = none →
        (∃ u, u ∈ st.users ∧ u.ID = rt.UserID) →
        UserService.ResetPasswordUser st now tok np mf
          = Except.ok
              { users := st.users.map (fun x =>
                  if x.ID == rt.UserID then
                    { x with PasswordHash := HashPassword np, UpdatedAt := now }
                  else x),
                resetTokens :=
                  if mf then st.resetTokens
                  else ResetTokenRepo.MarkUsed st.resetTokens rt.ID now })) := by
  constructor
  · intro h
    unfold UserService.ResetPasswordUser
    rw [h]
  · intro rt hrt
    refine ⟨?_, ?_, ?_⟩
    · intro hexp
      unfold UserService.ResetPasswordUser
      rw [hrt]
      simp [hexp]
    · intro hnexp hused
      unfold UserService.ResetPasswordUser
      rw [hrt]
      simp [hnexp, hused]
    · intro hnexp hunused hmem
      unfold UserService.ResetPasswordUser
      rw [hrt]
      simp only [hnexp, if_false, hunused, Option.isSome_none, Bool.false_eq_true]
      rw [updatePassword_ok_of_mem st.users rt.UserID (HashPassword np) now hmem]

/-- Sample reset state for the witnesses: one user (id 7) and one unused
reset token "tok123" for that user expiring at time 1000. -/
def sampleResetState : ResetState :=
  { users := [{ ID := 7, Username := "bob12345", Email := "bob@example.com",
                PasswordHash := HashPassword "oldpw", Role := "user",
                CreatedAt := 0, UpdatedAt := 0 }],
    resetTokens := [{ ID := 1, UserID := 7, Token := "tok123",
                      ExpiresAt := 1000, UsedAt := none }] }

/-- Witness for C4 on `sampleResetState`: before expiry the reset succeeds
(also when marking used fails), after expiry it fails as expired, and an
unknown token fails as not found. -/
theorem reset_password_lifecycle_witness :
    (∃ st2, UserService.ResetPasswordUser sampleResetState 500 "tok123" "newpw123" false
        = Except.ok st2)
    ∧ (∃ st2, UserService.ResetPasswordUser sampleResetState 500 "tok123" "newpw123" true
        = Except.ok st2)
    ∧ UserService.ResetPasswordUser sampleResetState 2000 "tok123" "newpw123" false
        = Except.error ResetError.tokenExpired
    ∧ UserService.ResetPasswordUser sampleResetState 500 "nosuch" "newpw123" false
        = Except.error ResetError.invalidOrExpiredToken := by
  have hfound : ResetTokenRepo.FindByToken sampleResetState.resetTokens "tok123"
      = Except.ok { ID := 1, UserID := 7, Token := "tok123",
                    ExpiresAt := 1000, UsedAt := none } := by rfl
  have hmem : ∃ u, u ∈ sampleResetState.users ∧ u.ID = 7 := by
    refine ⟨_, List.mem_singleton.mpr rfl, rfl⟩
  refine ⟨⟨_, (((reset_password_lifecycle sampleResetState 500 "tok123" "newpw123"
          false).2 _ hfound).2.2 (by decide) rfl hmem)⟩,
        ⟨_, (((reset_password_lifecycle sampleResetState 500 "tok123" "newpw123"
          true).2 _ hfound).2.2 (by decide) rfl hmem)⟩,
        (((reset_password_lifecycle sampleResetState 2000 "tok123" "newpw123"
          false).2 _ (by rfl)).1 (by decide)),
        ((reset_password_lifecycle sampleResetState 500 "nosuch" "newpw123"
          false).1 (by rfl))⟩

/-- C5: forgotPassword returns the identical 200 response with the fixed
message whether or not the email belongs to a user, and the outcome is
independent of whether sending the reset email fails. -/
theorem forgot_password_enumeration_resistance (st : ResetState) (now : Nat)
    (e1 e2 tok1 tok2 : String) (f1 f2 : Bool)
    (hexists : ∃ u, u ∈ st.users ∧ u.Email = e1)
    (hnone : ∀ u, u ∈ st.users → u.Email ≠ e2) :
    (UserHandler.ForgotPasswordHandler st now tok1 f1 (BindResult.ok e1)).1
        = (200, [("message", "Password reset email sent")])
    ∧ (UserHandler.ForgotPasswordHandler st now tok2 f2 (BindResult.ok e2)).1
        = (200, [("message", "Password reset email sent")])
    ∧ (∀ g g' : Bool, UserHandler.ForgotPasswordHandler st now tok1 g (BindResult.ok e1)
        = UserHandler.ForgotPasswordHandler st now tok1 g' (BindResult.ok e1)) := by
  refine ⟨?_, ?_, ?_⟩
  · obtain ⟨u, hu, he⟩ := hexists
    have hsome : (st.users.find? (fun x => x.Email == e1)).isSome :=
      List.find?_isSome.mpr ⟨u, hu, by simp [he]⟩
    cases hf : st.users.find? (fun x => x.Email == e1) with
    | none => rw [hf] at hsome; simp at hsome
    | some v =>
      have hfbe : UserRepository.FindByEmail st.users e1 = Except.ok v := by
        unfold UserRepository.FindByEmail
        rw [hf]
      have hsvc : UserService.ForgotPasswordUser st now e1 tok1 f1
          = Except.ok { st with resetTokens :=
              ResetTokenRepo.Save st.resetTokens v.ID tok1 (now + 60 * 60) } := by
        unfold UserService.ForgotPasswordUser
        rw [hfbe]
      simp [UserHandler.ForgotPasswordHandler, hsvc]
  · have hf : st.users.find? (fun x => x.Email == e2) = none := by
      rw [List.find?_eq_none]
      intro x hx
      simp [hnone x hx]
    have hfbe : UserRepository.FindByEmail st.users e2
        = Except.error UserRepoError.ErrUserNotFound := by
      unfold UserRepository.FindByEmail
      rw [hf]
    have hsvc : UserService.ForgotPasswordUser st now e2 tok2 f2 = Except.ok st := by
      unfold UserService.ForgotPasswordUser
      rw [hfbe]
    simp [UserHandler.ForgotPasswordHandler, hsvc]
  · intro g g'
    rfl

/-- Witness for C5 on `sampleResetState`: the handler response for the
existing email bob@example.com equals the response for the unknown email
nobody@example.com, both with and without an email-send failure. -/
theorem forgot_password_enumeration_resistance_witness :
    (UserHandler.ForgotPasswordHandler sampleResetState 100 "t1" true
        (BindResult.ok "bob@example.com")).1
      = (200, [("message", "Password reset email sent")])
    ∧ (UserHandler.ForgotPasswordHandler sampleResetState 100 "t2" false
        (BindResult.ok "nobody@example.com")).1
      = (200, [("message", "Password reset email sent")]) := by
  have h := forgot_password_enumeration_resistance sampleResetState 100
      "bob@example.com" "nobody@example.com" "t1" "t2" true false
      ⟨{ ID := 7, Username := "bob12345", Email := "bob@example.com",
         PasswordHash := HashPassword "oldpw", Role := "user",
         CreatedAt := 0, UpdatedAt := 0 },
       List.mem_singleton.mpr rfl, rfl⟩
      (by intro u hu; rw [List.mem_singleton.mp hu]; decide)
  exact ⟨h.1, h.2.1⟩

/-- C6: ValidateToken succeeds exactly when the signing method is the
expected HMAC family, the signature verifies, the token is unexpired, and
the user_id/email/role claims are present with their expected types; in
that case it returns exactly those claims, and in every other case it
returns an error (which the middleware surfaces as 401
"Invalid or expired token"). -/
theorem validate_token_spec (tok : ParsedToken) :
    ((∃ c, JWTService.ValidateToken tok = Except.ok c) ↔
      (tok.methodIsHMAC = true ∧ tok.signatureValid = true ∧ tok.expired = false
        ∧ (∃ n, tok.claims.lookup "user_id" = some (ClaimValue.num n))
        ∧ (∃ e, tok.claims.lookup "email" = some (ClaimValue.str e))
        ∧ (∃ r, tok.claims.lookup "role" = some (ClaimValue.str r))))
    ∧ (∀ n e r, tok.methodIsHMAC = true → tok.signatureValid = true →
        tok.expired = false →
        tok.claims.lookup "user_id" = some (ClaimValue.num n) →
        tok.claims.lookup "email" = some (ClaimValue.str e) →
        tok.claims.lookup "role" = some (ClaimValue.str r) →
        JWTService.ValidateToken tok = Except.ok { UserID := n, Email := e, Role := r }) := by
  have hpos : ∀ n e r, tok.methodIsHMAC = true → tok.signatureValid = true →
      tok.expired = false →
      tok.claims.lookup "user_id" = some (ClaimValue.num n) →
      tok.claims.lookup "email" = some (ClaimValue.str e) →
      tok.claims.lookup "role" = some (ClaimValue.str r) →
      JWTService.ValidateToken tok = Except.ok { UserID := n, Email := e, Role := r } := by
    intro n e r h1 h2 h3 h4 h5 h6
    unfold JWTService.ValidateToken
    rw [h4, h5, h6]
    simp [h1, h2, h3]
  refine ⟨⟨?_, ?_⟩, hpos⟩
  · rintro ⟨c, hc⟩
    unfold JWTService.ValidateToken at hc
    by_cases h1 : tok.methodIsHMAC = true
    case neg => simp [h1] at hc
    by_cases h2 : tok.signatureValid = true
    case neg => simp [h1, h2] at hc
    by_cases h3 : tok.expired = true
    case pos => simp [h1, h2, h3] at hc
    have h3' : tok.expired = false := by simpa using h3
    refine ⟨h1, h2, h3', ?_⟩
    simp only [h1, h2, h3', Bool.not_true, Bool.not_false] at hc
    cases hu : tok.claims.lookup "user_id" with
    | none => rw [hu] at hc; simp at hc
    | some vu =>
      rw [hu] at hc
      cases vu with
      | str s => simp at hc
      | boolVal b => simp at hc
      | nullVal => simp at hc
      | num n =>
        cases he : tok.claims.lookup "email" with
        | none => rw [he] at hc; simp at hc
        | some ve =>
          rw [he] at hc
          cases ve with
          | num m => simp at hc
          | boolVal b => simp at hc
          | nullVal => simp at hc
          | str e =>
            cases hr : tok.claims.lookup "role" with
            | none => rw [hr] at hc; simp at hc
            | some vr =>
              rw [hr] at hc
              cases vr with
              | num m => simp at hc
              | boolVal b => simp at hc
              | nullVal => simp at hc
              | str r => exact ⟨⟨n, rfl⟩, ⟨e, rfl⟩, ⟨r, rfl⟩⟩
  · rintro ⟨h1, h2, h3, ⟨n, h4⟩, ⟨e, h5⟩, ⟨r, h6⟩⟩
    exact ⟨_, hpos n e r h1 h2 h3 h4 h5 h6⟩

/-- Sample parsed token for the C6 witness: HMAC-signed, valid signature,
unexpired, with well-typed user_id/email/role claims. -/
def sampleParsedToken : ParsedToken :=
  { methodIsHMAC := true, signatureValid := true, expired := false,
    claims := [("user_id", ClaimValue.num 1),
               ("email", ClaimValue.str "alice@example.com"),
               ("role", ClaimValue.str "user"),
               ("iat", ClaimValue.num 0), ("exp", ClaimValue.num 86400)] }

/-- Witness for C6: validating `sampleParsedToken` succeeds and returns
exactly its user_id/email/role claims. -/
theorem validate_token_spec_witness :
    JWTService.ValidateToken sampleParsedToken
      = Except.ok { UserID := 1, Email := "alice@example.com", Role := "user" } :=
  (validate_token_spec sampleParsedToken).2 1 "alice@example.com" "user"
    rfl rfl rfl (by rfl) (by rfl) (by rfl)

/-- Counterexample for C7: the token issued by the main.go loginHandler on a
concrete successful login has no `iat` claim, so its claim set is not
exactly user_id, email, role, iat, exp. -/
theorem main_login_claims_counterexample :
    (mainLoginHandlerClaims 1 "alice@example.com" "user" 1000).lookup "iat" = none
    ∧ (mainLoginHandlerClaims 1 "alice@example.com" "user" 1000).map Prod.fst
        = ["user_id", "email", "role", "exp"] := by
  constructor <;> rfl

/-- C7 (amended): tokens issued through JWTService.GenerateToken carry
exactly the claims user_id, email, role, iat, exp with iat the issuance
time and exp 24 hours (86400 seconds) later; tokens issued by the main.go
loginHandler carry exactly user_id, email, role, exp — no iat — with exp 24
hours after issuance. -/
theorem session_token_claim_set (userID : Nat) (email role : String) (now : Nat) :
    (JWTService.GenerateTokenClaims userID email role now).map Prod.fst
        = ["user_id", "email", "role", "iat", "exp"]
    ∧ (JWTService.GenerateTokenClaims userID email role now).lookup "user_id"
        = some (ClaimValue.num userID)
    ∧ (JWTService.GenerateTokenClaims userID email role now).lookup "email"
        = some (ClaimValue.str email)
    ∧ (JWTService.GenerateTokenClaims userID email role now).lookup "role"
        = some (ClaimValue.str role)
    ∧ (JWTService.GenerateTokenClaims userID email role now).lookup "iat"
        = some (ClaimValue.num now)
    ∧ (JWTService.GenerateTokenClaims userID email role now).lookup "exp"
        = some (ClaimValue.num (now + 86400))
    ∧ (mainLoginHandlerClaims userID email role now).map Prod.fst
        = ["user_id", "email", "role", "exp"]
    ∧ (mainLoginHandlerClaims userID email role now).lookup "iat" = none
    ∧ (mainLoginHandlerClaims userID email role now).lookup "exp"
        = some (ClaimValue.num (now + 86400)) := by
  refine ⟨rfl, rfl, rfl, rfl, rfl, rfl, rfl, rfl, rfl⟩

/-- C8: when the requested email or username is already taken, user
creation fails with ErrDuplicateEmail and the register endpoint responds
409 with the fixed duplicate message, leaving the users table unchanged —
regardless of the other submitted fields. -/
theorem duplicate_registration_conflict (users : List User) (now : Nat)
    (req : UserRegisterRequest)
    (htaken : ∃ x, x ∈ users ∧ (x.Email = req.Email ∨ x.Username = req.Username)) :
    UserService.RegisterUser users now req
        = Except.error UserRepoError.ErrDuplicateEmail
    ∧ UserHandler.RegisterHandler users now (BindResult.ok req)
        = ((409, [("error", "Username or email already exists")]), users) := by
  obtain ⟨x, hx, hor⟩ := htaken
  have hany : users.any
      (fun y => y.Email == req.Email || y.Username == req.Username) = true := by
    rw [List.any_eq_true]
    refine ⟨x, hx, ?_⟩
    cases hor with
    | inl h => simp [h]
    | inr h => simp [h]
  have hcreate : UserRepository.Create users now
      { ID := 0, Username := req.Username, Email := req.Email,
        PasswordHash := HashPassword req.Password, Role := "user",
        CreatedAt := 0, UpdatedAt := 0 }
      = Except.error UserRepoError.ErrDuplicateEmail := by
    unfold UserRepository.Create
    simp [hany]
  have hsvc : UserService.RegisterUser users now req
      = Except.error UserRepoError.ErrDuplicateEmail := by
    simp [UserService.RegisterUser, hcreate]
  exact ⟨hsvc, by simp [UserHandler.RegisterHandler, hsvc]⟩

/-- Sample users table for the registration witnesses: one registered user
alice123 with email alice@example.com. -/
def sampleUsers : List User :=
  [{ ID := 1, Username := "alice123", Email := "alice@example.com",
     PasswordHash := HashPassword "pw", Role := "user",
     CreatedAt := 0, UpdatedAt := 0 }]

/-- Witness for C8 on `sampleUsers`: registering a different username with
the already-taken email alice@example.com yields 409 and no new row. -/
theorem duplicate_registration_conflict_witness :
    UserHandler.RegisterHandler sampleUsers 50
        (BindResult.ok { Username := "otherName", Email := "alice@example.com",
                         Password := "password1" })
      = ((409, [("error", "Username or email already exists")]), sampleUsers) :=
  (duplicate_registration_conflict sampleUsers 50
      { Username := "otherName", Email := "alice@example.com", Password := "password1" }
      ⟨_, List.mem_singleton.mpr rfl, Or.inl rfl⟩).2

/-- Counterexample for C9: the main.go registerHandler response to a
malformed payload carries a second `details` entry holding the internal
binding error text, so the error body is not only the fixed message. -/
theorem error_body_details_counterexample :
    ((mainRegisterHandler [] 0
        (BindResult.err "json: unexpected end of JSON input")).1.2).map Prod.fst
        = ["error", "details"]
    ∧ ((mainRegisterHandler [] 0
        (BindResult.err "json: unexpected end of JSON input")).1.2).lookup "details"
        = some "json: unexpected end of JSON input" := by
  constructor <;> rfl

theorem scanRows_ne_nilSlice (rows : List Todo) : scanRows rows ≠ GoSlice.nilSlice := by
  simp only [scanRows]
  cases rows.foldl goAppend GoSlice.nilSlice with
  | nilSlice => simp
  | mk l => simp

/-- C10: a non-admin user with no rows of their own gets the explicit empty
slice from the list operation, which serializes to the empty JSON array;
moreover no list result is ever the nil slice, so the endpoint never
serializes to null. -/
theorem empty_todo_list_serialization (db : List Todo) (userID : Int) (role : String)
    (hrole : role ≠ "admin") (hnone : ∀ t, t ∈ db → t.user_id ≠ userID) :
    TodoService.GetTodos db userID role = GoSlice.mk []
    ∧ jsonOfTodoSlice (TodoService.GetTodos db userID role) = "[]"
    ∧ (∀ db2 uid2 r2, TodoService.GetTodos db2 uid2 r2 ≠ GoSlice.nilSlice) := by
  have hfilter : db.filter (fun t => t.user_id == userID) = [] := by
    rw [List.filter_eq_nil_iff]
    intro t ht
    simp [hnone t ht]
  have hrb : (role == "admin") = false := by simp [hrole]
  have hmain : TodoService.GetTodos db userID role = GoSlice.mk [] := by
    unfold TodoService.GetTodos
    rw [hrb, hfilter]
    simp [scanRows]
  refine ⟨hmain, by rw [hmain]; rfl, ?_⟩
  intro db2 uid2 r2
  unfold TodoService.GetTodos TodoRepository.FindAll
  by_cases hr2 : (r2 == "admin") = true
  · rw [if_pos hr2]
    exact scanRows_ne_nilSlice db2
  · rw [if_neg hr2]
    exact scanRows_ne_nilSlice (db2.filter (fun t => t.user_id == uid2))

/-- Witness for C10 on `sampleDB` (one todo owned by user 5): listing as
non-admin user 2 yields the explicit empty slice and the JSON array
brackets. -/
theorem empty_todo_list_serialization_witness :
    TodoService.GetTodos sampleDB 2 "user" = GoSlice.mk []
    ∧ jsonOfTodoSlice (TodoService.GetTodos sampleDB 2 "user") = "[]" := by
  have h := empty_todo_list_serialization sampleDB 2 "user" (by decide)
      (by intro t ht; rw [show t = sampleTodo from List.mem_singleton.mp ht]; decide)
  exact ⟨h.1, h.2.1⟩

/-- MySQL AUTO_INCREMENT primary key for the `todos` table. -/
def nextTodoID (db : List Todo) : Int :=
  db.foldl (fun m x => max m x.id) 0 + 1

/-- Embeds `Repository.Create` (todo/repository.go): `INSERT INTO todos
(user_id, title, completed)`, then `LastInsertId`, then a re-read through
`FindByID` so the schema-default created_at/updated_at are reflected. -/
def TodoRepository.Create (db : List Todo) (now : Nat) (t : Todo) :
    Except TodoRepoError (List Todo × Todo) :=
  let id := nextTodoID db
  let db2 := db ++ [{ t with id := id, created_at := now, updated_at := now }]
  match TodoRepository.FindByID db2 id with
  | Except.ok created => Except.ok (db2, created)
  | Except.error e => Except.error e

/-- Modelled from the spec: `services/todo_service.go` is missing; per spec
section 4.6 create forces `todo.user_id = userID` and persists via the
repository. -/
def TodoService.CreateTodo (db : List Todo) (now : Nat) (t : Todo) (userID : Int) :
    Except TodoRepoError (List Todo × Todo) :=
  TodoRepository.Create db now { t with user_id := userID }

/-- Embeds `TodoHandler.CreateTodoHandler` (handlers/todo_handler.go) at
JSON-body granularity: its `ShouldBindJSON` failure responds 400 with the
fixed message plus a second `details` entry holding the raw binding error
text; a service failure responds 500 with a single fixed entry; success
responds 201 with the created todo. -/
def TodoHandler.CreateTodoHandler (db : List Todo) (now : Nat)
    (bind : BindResult Todo) (userID : Int) :
    (Nat × List (String × String)) × List Todo :=
  match bind with
  | BindResult.err d =>
    ((400, [("error", "Invalid request payload"), ("details", d)]), db)
  | BindResult.ok newTodo =>
    match TodoService.CreateTodo db now newTodo userID with
    | Except.error _ => ((500, [("error", "Failed to save todo to database")]), db)
    | Except.ok (db2, created) => ((201, [("todo", jsonOfTodo created)]), db2)

/-- Embeds `TodoHandler.UpdateTodoHandler` (handlers/todo_handler.go) at
JSON-body granularity, including its `ShouldBindJSON` step: a bind failure
responds 400 with the fixed message plus a `details` entry holding the raw
binding error text; service failures respond with a single fixed entry
(404 "Todo not found" / 403 "Access denied"); success responds 200 with
the updated todo. -/
def TodoHandler.UpdateTodoHandlerJSON (db : List Todo) (now : Nat) (id : Int)
    (bind : BindResult Todo) (userID : Int) (role : String) :
    (Nat × List (String × String)) × List Todo :=
  match bind with
  | BindResult.err d =>
    ((400, [("error", "Invalid request payload"), ("details", d)]), db)
  | BindResult.ok patch =>
    match TodoService.UpdateTodo db now id patch userID role with
    | Except.ok (db2, t) => ((200, [("todo", jsonOfTodo t)]), db2)
    | Except.error TodoRepoError.ErrTodoNotFound =>
      ((404, [("error", "Todo not found")]), db)
    | Except.error TodoRepoError.ErrTodoForbidden =>
      ((403, [("error", "Access denied")]), db)

/-- Rendering of a `ResetError` as the Go `err.Error()` string produced by
`UserService.ResetPasswordUser` (services/user_service.go): three fixed
strings from its own `fmt.Errorf` calls, and the update-password failure
wrapping the repository error text. -/
def resetErrorMessage : ResetError → String
  | ResetError.invalidOrExpiredToken => "invalid or expired token"
  | ResetError.tokenExpired => "token expired"
  | ResetError.tokenAlreadyUsed => "token already used"
  | ResetError.failedToUpdatePassword =>
    "failed to update password: " ++ userRepoErrorText UserRepoError.noRowsAffected

/-- Embeds `UserHandler.ResetPasswordHandler` (handlers/user_handler.go): a
bind failure responds 400 with the fixed message; a service failure
responds 400 with the service error string `err.Error()` itself as the
message; success responds 200 with the fixed message. -/
def UserHandler.ResetPasswordHandler (st : ResetState) (now : Nat) (tok : String)
    (markUsedFails : Bool) (bind : BindResult String) :
    (Nat × List (String × String)) × ResetState :=
  match bind with
  | BindResult.err _ => ((400, [("error", "Invalid request payload")]), st)
  | BindResult.ok password =>
    match UserService.ResetPasswordUser st now tok password markUsedFails with
    | Except.error e => ((400, [("error", resetErrorMessage e)]), st)
    | Except.ok st2 => ((200, [("message", "Password reset successfully")]), st2)

/-- C9 (amended): error bodies leak internal error text in exactly the
embedded places the code forces — the bind-failure responses of the todo
create and update handlers (and of the main.go handlers, see the
counterexample) add a `details` entry carrying the raw binding error text,
and the reset handler echoes the service error string, which for
update-password failures embeds the wrapped repository error text; the
register and forgot-password handlers, and the todo handlers' non-bind
errors (get, delete, and the update/create service failures), respond with
exactly one fixed error entry. -/
theorem handler_error_body_policy (users : List User) (now : Nat)
    (bind : BindResult UserRegisterRequest) (st : ResetState) (tok : String)
    (esf : Bool) (bindF : BindResult String)
    (db : List Todo) (id userID : Int) (role : String)
    (status : Nat) (body : List (String × String)) (users2 : List User)
    (h : UserHandler.RegisterHandler users now bind = ((status, body), users2))
    (herr : 400 ≤ status) :
    (∃ m, body = [("error", m)]
      ∧ (m = "Invalid request payload" ∨ m = "Username or email already exists"
          ∨ m = "Failed to register user"))
    ∧ (∀ status2 body2 st2,
        UserHandler.ForgotPasswordHandler st now tok esf bindF = ((status2, body2), st2) →
        400 ≤ status2 → ∃ m, body2 = [("error", m)])
    ∧ (∀ d, (TodoHandler.UpdateTodoHandlerJSON db now id (BindResult.err d) userID role).1
        = (400, [("error", "Invalid request payload"), ("details", d)]))
    ∧ (∀ d, (TodoHandler.CreateTodoHandler db now (BindResult.err d) userID).1
        = (400, [("error", "Invalid request payload"), ("details", d)]))
    ∧ (∀ patch status3 body3 db3,
        TodoHandler.UpdateTodoHandlerJSON db now id (BindResult.ok patch) userID role
            = ((status3, body3), db3) →
        400 ≤ status3 →
        body3 = [("error", "Todo not found")] ∨ body3 = [("error", "Access denied")])
    ∧ (∀ newTodo status5 body5 db5,
        TodoHandler.CreateTodoHandler db now (BindResult.ok newTodo) userID
            = ((status5, body5), db5) →
        400 ≤ status5 → body5 = [("error", "Failed to save todo to database")])
    ∧ (∀ s m, TodoHandler.GetTodoByIDHandler db id userID role
            = HandlerResult.errorResult s m →
        (s = 404 ∧ m = "Todo not found") ∨ (s = 403 ∧ m = "Access denied"))
    ∧ (∀ s m, (TodoHandler.DeleteTodoHandler db id userID role).1
            = HandlerResult.errorResult s m →
        (s = 404 ∧ m = "Todo not found") ∨ (s = 403 ∧ m = "Access denied"))
    ∧ (∀ password status4 body4 st4,
        UserHandler.ResetPasswordHandler st now tok esf (BindResult.ok password)
            = ((status4, body4), st4) →
        400 ≤ status4 → ∃ e, body4 = [("error", resetErrorMessage e)])
    ∧ resetErrorMessage ResetError.failedToUpdatePassword
        = "failed to update password: " ++ userRepoErrorText UserRepoError.noRowsAffected := by
  refine ⟨?_, ?_, fun d => rfl, fun d => rfl, ?_, ?_, ?_, ?_, ?_, rfl⟩
  · cases bind with
    | err d =>
      simp only [UserHandler.RegisterHandler, Prod.mk.injEq] at h
      exact ⟨"Invalid request payload", h.1.2.symm, Or.inl rfl⟩
    | ok req =>
      simp only [UserHandler.RegisterHandler] at h
      cases hreg : UserService.RegisterUser users now req with
      | ok pr =>
        obtain ⟨u2, cr⟩ := pr
        rw [hreg] at h
        simp only [Prod.mk.injEq] at h
        obtain ⟨⟨hs, hb⟩, hu⟩ := h
        exact absurd herr (by omega)
      | error e =>
        rw [hreg] at h
        cases e with
        | ErrDuplicateEmail =>
          simp only [Prod.mk.injEq] at h
          exact ⟨"Username or email already exists", h.1.2.symm, Or.inr (Or.inl rfl)⟩
        | ErrUserNotFound =>
          simp only [Prod.mk.injEq] at h
          exact ⟨"Failed to register user", h.1.2.symm, Or.inr (Or.inr rfl)⟩
        | ErrResetTokenNotFound =>
          simp only [Prod.mk.injEq] at h
          exact ⟨"Failed to register user", h.1.2.symm, Or.inr (Or.inr rfl)⟩
        | noRowsAffected =>
          simp only [Prod.mk.injEq] at h
          exact ⟨"Failed to register user", h.1.2.symm, Or.inr (Or.inr rfl)⟩
  · intro status2 body2 st2 h2 herr2
    cases bindF with
    | err d =>
      simp only [UserHandler.ForgotPasswordHandler, Prod.mk.injEq] at h2
      exact ⟨"Invalid request payload", h2.1.2.symm⟩
    | ok email =>
      simp only [UserHandler.ForgotPasswordHandler] at h2
      cases hsvc : UserService.ForgotPasswordUser st now email tok esf with
      | error e =>
        rw [hsvc] at h2
        simp only [Prod.mk.injEq] at h2
        exact ⟨"Failed to process password reset", h2.1.2.symm⟩
      | ok st3 =>
        rw [hsvc] at h2
        simp only [Prod.mk.injEq] at h2
        obtain ⟨⟨hs, hb⟩, hst⟩ := h2
        exact absurd herr2 (by omega)
  · intro patch status3 body3 db3 h3 herr3
    simp only [TodoHandler.UpdateTodoHandlerJSON] at h3
    cases hu : TodoService.UpdateTodo db now id patch userID role with
    | ok pr =>
      obtain ⟨db4, t4⟩ := pr
      rw [hu] at h3
      simp only [Prod.mk.injEq] at h3
      obtain ⟨⟨hs, hb⟩, hd⟩ := h3
      exact absurd herr3 (by omega)
    | error e =>
      rw [hu] at h3
      cases e with
      | ErrTodoNotFound =>
        simp only [Prod.mk.injEq] at h3
        exact Or.inl h3.1.2.symm
      | ErrTodoForbidden =>
        simp only [Prod.mk.injEq] at h3
        exact Or.inr h3.1.2.symm
  · intro newTodo status5 body5 db5 h5 herr5
    simp only [TodoHandler.CreateTodoHandler] at h5
    cases hc : TodoService.CreateTodo db now newTodo userID with
    | ok pr =>
      obtain ⟨db6, t6⟩ := pr
      rw [hc] at h5
      simp only [Prod.mk.injEq] at h5
      obtain ⟨⟨hs, hb⟩, hd⟩ := h5
      exact absurd herr5 (by omega)
    | error e =>
      rw [hc] at h5
      simp only [Prod.mk.injEq] at h5
      exact h5.1.2.symm
  · intro s m hg
    unfold TodoHandler.GetTodoByIDHandler at hg
    cases hsvc : TodoService.GetTodoByID db id userID role with
    | ok t =>
      rw [hsvc] at hg
      simp at hg
    | error e =>
      rw [hsvc] at hg
      cases e with
      | ErrTodoNotFound =>
        simp only [HandlerResult.errorResult.injEq] at hg
        exact Or.inl ⟨hg.1.symm, hg.2.symm⟩
      | ErrTodoForbidden =>
        simp only [HandlerResult.errorResult.injEq] at hg
        exact Or.inr ⟨hg.1.symm, hg.2.symm⟩
  · intro s m hd
    unfold TodoHandler.DeleteTodoHandler at hd
    cases hsvc : TodoService.DeleteTodo db id userID role with
    | ok db2 =>
      rw [hsvc] at hd
      simp at hd
    | error e =>
      rw [hsvc] at hd
      cases e with
      | ErrTodoNotFound =>
        simp only [HandlerResult.errorResult.injEq] at hd
        exact Or.inl ⟨hd.1.symm, hd.2.symm⟩
      | ErrTodoForbidden =>
        simp only [HandlerResult.errorResult.injEq] at hd
        exact Or.inr ⟨hd.1.symm, hd.2.symm⟩
  · intro password status4 body4 st4 h4 herr4
    simp only [UserHandler.ResetPasswordHandler] at h4
    cases hr : UserService.ResetPasswordUser st now tok password esf with
    | ok st5 =>
      rw [hr] at h4
      simp only [Prod.mk.injEq] at h4
      obtain ⟨⟨hs, hb⟩, hst⟩ := h4
      exact absurd herr4 (by omega)
    | error e =>
      rw [hr] at h4
      simp only [Prod.mk.injEq] at h4
      exact ⟨e, h4.1.2.symm⟩

/-- Witness for C9 (amended): at concrete inputs the register handler's 400
body is exactly one fixed error entry, while the todo update handler's
bind-failure body carries the raw binding error text under `details`. -/
theorem handler_error_body_policy_witness :
    (∃ m, [("error", "Invalid request payload")] = [("error", m)]
      ∧ (m = "Invalid request payload" ∨ m = "Username or email already exists"
          ∨ m = "Failed to register user"))
    ∧ (TodoHandler.UpdateTodoHandlerJSON sampleDB 0 1
        (BindResult.err "json: cannot unmarshal string into field completed") 5 "user").1
      = (400, [("error", "Invalid request payload"),
               ("details", "json: cannot unmarshal string into field completed")]) := by
  have h := handler_error_body_policy sampleUsers 0
      (BindResult.err "json: unexpected end of input") sampleResetState "t" false
      (BindResult.ok "bob@example.com") sampleDB 1 5 "user"
      400 [("error", "Invalid request payload")] sampleUsers rfl (Nat.le_refl 400)
  exact ⟨h.1, h.2.2.1 "json: cannot unmarshal string into field completed"⟩
